import Mathlib

set_option maxRecDepth 100000

/-!
Verification of the agent dispatch / completion-polling protocol of the
meta-ad-manager repository.

The two programs embedded here are:

* `scripts/dispatch_agent.py` of the meta-ads orchestrator
  (`AgentDispatcher.get_deliverable_status`, `update_deliverable_to_in_progress`,
  `trigger_agent_ssh`, `poll_for_completion`, `dispatch_and_monitor`), and
* `scripts/dispatch_agent.py` of the google-ads orchestrator
  (`AgentDispatcher.validate_inputs`, `test_ssh_connection`, `trigger_agent`,
  `run`).

Modelling conventions:

* The Supabase task-record store and the SSH channel are external
  collaborators; an environment record supplies, for each successive
  interaction, the response the external world would give (`MetaEnv.read k`
  is the answer to the k-th status query, `MetaEnv.ssh n` the outcome of the
  n-th `subprocess.run` of an ssh command).  `get_deliverable_status`
  catches every exception and folds non-200 responses into `None`, so a
  store answer is simply `Option Deliverable`.
* JSON row fields can be absent or `null`; `JsonField` keeps the three
  cases apart because Python's `dict.get(key, default)` substitutes the
  default only for an absent key, not for a `null` value.
* Wall-clock time is discretised: reads are instantaneous and time advances
  by `poll_interval` at each `time.sleep(poll_interval)`, so the elapsed
  time seen at the top of the k-th loop iteration is `k * interval`.
* The polling loop of the source has no structural bound (it exits through
  the `elapsed > timeout_seconds` check), so it is embedded with an explicit
  fuel parameter; `none` denotes fuel exhaustion, i.e. non-termination of
  the loop, and is proved unreachable for the fuel the wrappers supply.
* Observable side effects are collected into an event trace: the PATCH that
  marks the record IN_PROGRESS, each ssh invocation, each store read, each
  sleep.  An uncaught Python exception is the `pyError` / `crashed` value.
-/

/-- One JSON field of a task-record row: absent key, `null` value, or a
string value.  `dict.get(key, default)` yields the default only in the
`missing` case. -/
inductive JsonField where
  | missing
  | null
  | str (s : String)
deriving DecidableEq

/-- Python `row.get(key, default)`: `missing` gives the default, `null`
gives Python `None` (here `none`), a string gives the string. -/
def pyGet (f : JsonField) (dflt : String) : Option String :=
  match f with
  | .missing => some dflt
  | .null => none
  | .str s => some s

/-- Rendering of a possibly-`None` value inside a Python f-string:
`None` prints as the text `"None"`. -/
def pyShow (o : Option String) : String :=
  match o with
  | some s => s
  | none => "None"

/-- The fields of an `agent_deliverables` row that `poll_for_completion`
inspects. -/
structure Deliverable where
  status : JsonField := .missing
  summary : JsonField := .missing
  delivered_at : JsonField := .missing
  blocked_reason : JsonField := .missing
deriving DecidableEq

/-- Outcome of one `subprocess.run(["ssh", ...])` call: normal exit with a
return code and captured output, `subprocess.TimeoutExpired`,
`FileNotFoundError` (no ssh client), or any other exception. -/
inductive SSHOutcome where
  | exited (returncode : Int) (stdout stderr : String)
  | timedOut
  | sshMissing
  | error (msg : String)
deriving DecidableEq

/-- Observable side effects of a dispatcher run, in order of occurrence. -/
inductive Event where
  | writeInProgress
  | sshTest
  | sshExec (attempt : Nat)
  | readRecord (idx : Nat)
  | sleepEv
deriving DecidableEq

/-- True exactly on store-read events. -/
def Event.isRead : Event → Bool
  | .readRecord _ => true
  | _ => false

/-- Result of the polling loop: a normal `(status, summary)` return, or an
uncaught Python exception escaping the loop. -/
inductive PollOutcome where
  | result (status summary : String)
  | pyError (msg : String)
deriving DecidableEq

/-- Status carried by a normal poll return, `none` for an exception. -/
def pollStatus : PollOutcome → Option String
  | .result s _ => some s
  | .pyError _ => none

/-- Result of the whole meta-ads dispatch run: the process exit code, or an
uncaught exception reaching `main`. -/
inductive DispatchRet where
  | exitCode (code : Int)
  | crashed (msg : String)
deriving DecidableEq

namespace MetaAds

/-- `AGENT_SKILL_MAP` module global of the meta-ads orchestrator script. -/
def AGENT_SKILL_MAP (agent : String) : Option String :=
  if agent = "data_placement" then some "meta-ads-data-placement-analyst"
  else if agent = "creative_analyst" then some "meta-ads-creative-analyst"
  else if agent = "post_click" then some "meta-ads-postclick-analyst"
  else if agent = "competitive_intel" then some "meta-ads-competitive-intel"
  else if agent = "creative_producer" then some "meta-ads-creative-producer"
  else if agent = "campaign_creator" then some "meta-ads-campaign-creator"
  else if agent = "campaign_monitor" then some "meta-ads-campaign-monitor"
  else none

/-- Python `a or b` on strings: the empty string is falsy. -/
def pyOr (a b : String) : String := if a = "" then b else a

/-- The generic give-up message of `poll_for_completion` (source line 155). -/
def timeoutMsg (timeout polls : Nat) : String :=
  "Agent did not complete within " ++ toString timeout ++ "s (" ++ toString polls ++ " polls)"

/-- The grace-window-expired message of `poll_for_completion` (source line 162). -/
def notFoundMsg : String := "Task not found in database (possible SSH failure)"

/-- The runtime error Python raises for `None[:200]` in the DELIVERED branch
(source line 173): slicing `None` is a `TypeError`. -/
def typeErrorMsg : String := "TypeError: NoneType object is not subscriptable"

/-- The summary string built in the DELIVERED branch (source line 173). -/
def deliveredMsg (delivered_at : Option String) (summary : String) : String :=
  "Completed at " ++ pyShow delivered_at ++ ". Summary: " ++ summary.take 200

/-- The summary string built in the BLOCKED branch (source line 177). -/
def blockedMsg (reason : Option String) : String :=
  "Agent blocked: " ++ pyShow reason

/-- `AgentDispatcher.trigger_agent_ssh` (source lines 107-136).  `sshRun n`
is the outcome the channel gives to the n-th ssh invocation; the returned
event list records which invocations were actually issued.  The skill-map
lookup happens before any ssh call; every channel outcome other than a zero
exit is caught and turned into a `(False, message)` return.  No retry of
any kind appears in the source. -/
def trigger_agent_ssh (sshRun : Nat → SSHOutcome) (agent host : String) :
    Bool × String × List Event :=
  match AGENT_SKILL_MAP agent with
  | none => (false, "Unknown agent: " ++ agent, [])
  | some _skill =>
    match sshRun 0 with
    | .exited rc out err =>
      if rc = 0 then (true, "Agent " ++ agent ++ " triggered successfully", [.sshExec 0])
      else (false, "SSH failed: " ++ (pyOr err out).take 200, [.sshExec 0])
    | .timedOut => (false, "SSH to " ++ host ++ " timed out (>30s)", [.sshExec 0])
    | .sshMissing => (false, "SSH client not found on this machine", [.sshExec 0])
    | .error m => (false, "SSH trigger failed: " ++ m.take 100, [.sshExec 0])

/-- One step per loop iteration of `AgentDispatcher.poll_for_completion`
(source lines 146-190), with explicit fuel.  `k` counts the sleeps so far,
so the elapsed time at the top of an iteration is `k * interval` and
`poll_count` is `k + 1`.  The checks appear in source order: overall
timeout first, then the store read, then the 30-second not-found grace
window, then the status dispatch.  `IN_PROGRESS`, `PENDING` and any unknown
status all sleep and continue.  In the DELIVERED branch the f-string slices
`summary[:200]`, which raises `TypeError` when the row's summary is JSON
`null`. -/
def pollAux (read : Nat → Option Deliverable) (timeout interval : Nat) :
    Nat → Nat → Option (PollOutcome × List Event)
  | 0, k =>
    if k * interval > timeout then
      some (.result "TIMEOUT" (timeoutMsg timeout (k + 1)), [])
    else none
  | fuel + 1, k =>
    if k * interval > timeout then
      some (.result "TIMEOUT" (timeoutMsg timeout (k + 1)), [])
    else
      match read k with
      | none =>
        if k * interval > 30 then
          some (.result "TIMEOUT" notFoundMsg, [.readRecord k])
        else
          (pollAux read timeout interval fuel (k + 1)).map
            (fun r => (r.1, .readRecord k :: .sleepEv :: r.2))
      | some d =>
        let st := pyGet d.status "UNKNOWN"
        if st = some "DELIVERED" then
          match pyGet d.summary "[no summary]" with
          | none => some (.pyError typeErrorMsg, [.readRecord k])
          | some summ =>
            some (.result "DELIVERED" (deliveredMsg (pyGet d.delivered_at "") summ),
              [.readRecord k])
        else if st = some "BLOCKED" then
          some (.result "BLOCKED" (blockedMsg (pyGet d.blocked_reason "Unknown reason")),
            [.readRecord k])
        else
          (pollAux read timeout interval fuel (k + 1)).map
            (fun r => (r.1, .readRecord k :: .sleepEv :: r.2))

/-- `poll_for_completion(task_id, timeout_seconds, poll_interval)`.  The
fuel `timeout + 2` is enough for every positive interval: the loop exits
through the `elapsed > timeout` check after at most `timeout / interval + 2`
iterations. -/
def poll_for_completion (read : Nat → Option Deliverable) (timeout interval : Nat) :
    Option (PollOutcome × List Event) :=
  pollAux read timeout interval (timeout + 2) 0

/-- The poll call issued by `dispatch_and_monitor` (source line 231): the
`poll_interval` argument is left at its default of 5 seconds. -/
def pollMeta (read : Nat → Option Deliverable) (timeout : Nat) :
    Option (PollOutcome × List Event) :=
  poll_for_completion read timeout 5

/-- The external world of one meta-ads dispatch run: whether the
IN_PROGRESS PATCH reports success, the outcome of each ssh invocation, and
the answer to each status query. -/
structure MetaEnv where
  updateOk : Bool
  ssh : Nat → SSHOutcome
  read : Nat → Option Deliverable

/-- `env` with the PATCH success bit replaced. -/
def setUpd (env : MetaEnv) (b : Bool) : MetaEnv :=
  { env with updateOk := b }

/-- The exit-code mapping at the end of `dispatch_and_monitor` (source
lines 242-253): DELIVERED exits 0, BLOCKED exits 2, TIMEOUT and the
fall-through both exit 1. -/
def exitFor (status : String) : Int :=
  if status = "DELIVERED" then 0
  else if status = "BLOCKED" then 2
  else if status = "TIMEOUT" then 1
  else 1

/-- `AgentDispatcher.dispatch_and_monitor` (source lines 192-253).  Step 1
issues the IN_PROGRESS PATCH and discards its boolean result (source line
212 ignores the return value of `update_deliverable_to_in_progress`); the
`writeInProgress` event records the attempt.  Step 2 triggers over ssh; on
failure the function returns exit code 1 without any poll.  Step 3 polls
with the default 5-second interval; the final report maps the poll status
to the exit code.  An exception escaping the poll loop escapes
`dispatch_and_monitor` as well, which the interpreter turns into a crash
(`DispatchRet.crashed`).  The cycle, task and brand identifiers only feed
the remote command line and log output, which the ssh environment
abstracts. -/
def dispatch_and_monitor (env : MetaEnv) (agent cycle_id task_id brand_id host : String)
    (timeout : Nat) : Option (DispatchRet × List Event) :=
  let _inprog_ok := env.updateOk
  match trigger_agent_ssh env.ssh agent host with
  | (success, _message, tevs) =>
    if success then
      (pollMeta env.read timeout).map fun pr =>
        match pr.1 with
        | .result st _ => (.exitCode (exitFor st), Event.writeInProgress :: tevs ++ pr.2)
        | .pyError m => (.crashed m, Event.writeInProgress :: tevs ++ pr.2)
    else
      some (.exitCode 1, Event.writeInProgress :: tevs)

end MetaAds

namespace GoogleAds

/-- `AgentDispatcher.AGENT_NAMES` of the google-ads orchestrator script. -/
def AGENT_NAMES (agent : String) : Option String :=
  if agent = "data-placement" then some "google-ads-data-placement-analyst"
  else if agent = "creative-analyst" then some "google-ads-creative-analyst"
  else if agent = "post-click" then some "google-ads-postclick-analyst"
  else if agent = "competitive-intel" then some "google-ads-competitive-intel"
  else if agent = "creative-producer" then some "google-ads-creative-producer"
  else if agent = "campaign-creator" then some "google-ads-campaign-creator"
  else if agent = "campaign-monitor" then some "google-ads-campaign-monitor"
  else none

/-- The short-name resolution in `AgentDispatcher.__init__` (source lines
70-74): a short name found in `AGENT_NAMES` resolves to the full worker
name, any other string is passed through unchanged. -/
def agent_full (agent : String) : String :=
  match AGENT_NAMES agent with
  | some f => f
  | none => agent

/-- Characters stripped by `hex.strip(String.mk [Char.ofNat 123, Char.ofNat 125])`
in `uuid.UUID`: the two brace characters. -/
def isBraceChar (c : Char) : Bool :=
  c = Char.ofNat 123 || c = Char.ofNat 125

/-- A hexadecimal digit as accepted by `int(s, 16)` for a single character. -/
def isHexChar (c : Char) : Bool :=
  c.isDigit || ('a' ≤ c && c ≤ 'f') || ('A' ≤ c && c ≤ 'F')

/-- `p` is a prefix of `s` (character lists). -/
def listHasPfx : List Char → List Char → Bool
  | [], _ => true
  | _ :: _, [] => false
  | p :: ps, c :: cs => p = c && listHasPfx ps cs

/-- Fuel-bounded worker for `removeSub`. -/
def removeSubAux (pat : List Char) : Nat → List Char → List Char
  | 0, s => s
  | _ + 1, [] => []
  | n + 1, c :: rest =>
    if 0 < pat.length && listHasPfx pat (c :: rest) then
      removeSubAux pat n ((c :: rest).drop pat.length)
    else
      c :: removeSubAux pat n rest

/-- Python `s.replace(pat, "")` for a non-empty pattern: every occurrence
of `pat` is deleted, scanning left to right. -/
def removeSub (pat : List Char) (s : List Char) : List Char :=
  removeSubAux pat s.length s

/-- Python `s.strip(chars)`: drop characters of the set from both ends. -/
def stripChars (p : Char → Bool) (s : List Char) : List Char :=
  ((s.dropWhile p).reverse.dropWhile p).reverse

/-- Success of `uuid.UUID(s)` as called by `validate_inputs`, following the
normalisation in the standard library constructor: delete every `urn:` and
`uuid:` substring, strip braces from the ends, delete hyphens, then require
exactly 32 hexadecimal digits.  (The final `int(hex, 16)` of the stdlib
also tolerates exotic spellings such as an embedded `0x` prefix or
underscores; those are outside this model, and no claim turns on them.) -/
def pyUUIDOk (s : String) : Bool :=
  let cs := removeSub ("uuid:".data) (removeSub ("urn:".data) s.data)
  let cs := stripChars isBraceChar cs
  let cs := cs.filter (fun c => !(c = '-'))
  cs.length = 32 && cs.all isHexChar

/-- `AgentDispatcher.validate_inputs` (source lines 99-126), with the early
returns of the source kept as an if-chain: the three UUIDs are checked in
order, then the resolved agent name is rejected only when it is empty
(`if not self.agent_full`), then the timeout floor of 60 seconds is
enforced. -/
def validate_inputs (cycle_id task_id brand_id agentFull : String) (timeout : Nat) : Bool :=
  if pyUUIDOk cycle_id = false then false
  else if pyUUIDOk task_id = false then false
  else if pyUUIDOk brand_id = false then false
  else if agentFull = "" then false
  else if timeout < 60 then false
  else true

/-- Worker for `strContains`: does `pat` occur in the list? -/
def strContainsAux (pat : List Char) : List Char → Bool
  | [] => listHasPfx pat []
  | c :: rest => listHasPfx pat (c :: rest) || strContainsAux pat rest

/-- Python substring membership, used for `"CONNECTION_OK" in result.stdout`. -/
def strContains (s pat : String) : Bool :=
  strContainsAux pat.data s.data

/-- The external world of one google-ads dispatch run: the outcome of the
connection-test ssh call and of the trigger ssh call. -/
structure GEnv where
  sshTest : SSHOutcome
  sshTrig : SSHOutcome

/-- `AgentDispatcher.test_ssh_connection` (source lines 128-158): success
requires a zero exit and `CONNECTION_OK` in the captured stdout; timeouts
and exceptions are caught and reported as failure. -/
def test_ssh_connection (genv : GEnv) : Bool × List Event :=
  match genv.sshTest with
  | .exited rc out _ =>
    if rc = 0 && strContains out "CONNECTION_OK" then (true, [.sshTest])
    else (false, [.sshTest])
  | _ => (false, [.sshTest])

/-- `AgentDispatcher.trigger_agent` (source lines 160-192): one ssh call,
success exactly on a zero exit; timeouts and exceptions are caught and
reported as failure.  No retry appears in the source. -/
def trigger_agent (genv : GEnv) : Bool × List Event :=
  match genv.sshTrig with
  | .exited rc _ _ => (if rc = 0 then true else false, [.sshExec 0])
  | _ => (false, [.sshExec 0])

/-- `AgentDispatcher.run` (source lines 225-249): validate, test the ssh
connection, trigger, report.  The google-ads variant performs no task-record
write and no polling of any kind; a successful trigger immediately yields
the success summary. -/
def run (genv : GEnv) (agent cycle_id task_id brand_id : String) (timeout : Nat) :
    Bool × List Event :=
  if validate_inputs cycle_id task_id brand_id (agent_full agent) timeout then
    let t := test_ssh_connection genv
    if t.1 then
      let g := trigger_agent genv
      (g.1, t.2 ++ g.2)
    else (false, t.2)
  else (false, [])

end GoogleAds

/-! Helper lemmas about the polling loop and the dispatch trace. -/

/-- With `timeout < (k + fuel) * interval` fuel, the polling loop always
returns (it cannot run out of fuel before the `elapsed > timeout` exit). -/
theorem pollAux_isSome (read : Nat → Option Deliverable) (timeout interval : Nat) :
    ∀ fuel k, timeout < (k + fuel) * interval →
      (MetaAds.pollAux read timeout interval fuel k).isSome = true := by
  intro fuel
  induction fuel with
  | zero =>
    intro k hb
    have hk : k * interval > timeout := by simpa using hb
    simp [MetaAds.pollAux, hk]
  | succ f ih =>
    intro k hb
    by_cases hk : k * interval > timeout
    · simp [MetaAds.pollAux, hk]
    · have hb' : timeout < (k + 1 + f) * interval := by
        have h : k + 1 + f = k + (f + 1) := by omega
        rw [h]; exact hb
      cases hrd : read k with
      | none =>
        by_cases hg : k * interval > 30
        · simp [MetaAds.pollAux, hk, hrd, hg]
        · simp [MetaAds.pollAux, hk, hrd, hg, Option.isSome_map]
          simpa using ih (k + 1) hb'
      | some d =>
        by_cases hD : pyGet d.status "UNKNOWN" = some "DELIVERED"
        · cases hsum : pyGet d.summary "[no summary]" with
          | none => simp [MetaAds.pollAux, hk, hrd, hD, hsum]
          | some s => simp [MetaAds.pollAux, hk, hrd, hD, hsum]
        · by_cases hB : pyGet d.status "UNKNOWN" = some "BLOCKED"
          · simp [MetaAds.pollAux, hk, hrd, hD, hB]
          · simp [MetaAds.pollAux, hk, hrd, hD, hB, Option.isSome_map]
            simpa using ih (k + 1) hb'

/-- The wrappers supply enough fuel: `pollMeta` always returns. -/
theorem pollMeta_total (read : Nat → Option Deliverable) (timeout : Nat) :
    ∃ r, MetaAds.pollMeta read timeout = some r := by
  have h := pollAux_isSome read timeout 5 (timeout + 2) 0 (by omega)
  exact Option.isSome_iff_exists.mp h

/-- The polling loop only reads and sleeps: its trace never contains the
IN_PROGRESS record write. -/
theorem pollAux_no_write (read : Nat → Option Deliverable) (timeout interval : Nat) :
    ∀ fuel k o evs, MetaAds.pollAux read timeout interval fuel k = some (o, evs) →
      Event.writeInProgress ∉ evs := by
  intro fuel
  induction fuel with
  | zero =>
    intro k o evs heq
    by_cases hk : k * interval > timeout
    · simp [MetaAds.pollAux, hk] at heq
      obtain ⟨h1, h2⟩ := heq
      subst h2
      simp
    · simp [MetaAds.pollAux, hk] at heq
  | succ f ih =>
    intro k o evs heq
    by_cases hk : k * interval > timeout
    · simp [MetaAds.pollAux, hk] at heq
      obtain ⟨h1, h2⟩ := heq
      subst h2
      simp
    · cases hrd : read k with
      | none =>
        by_cases hg : k * interval > 30
        · simp [MetaAds.pollAux, hk, hrd, hg] at heq
          obtain ⟨h1, h2⟩ := heq
          subst h2
          simp
        · simp [MetaAds.pollAux, hk, hrd, hg] at heq
          obtain ⟨o', evs', hrec, ho, hevs⟩ := heq
          have hmem := ih (k + 1) o' evs' hrec
          subst hevs
          simp [hmem]
      | some d =>
        by_cases hD : pyGet d.status "UNKNOWN" = some "DELIVERED"
        · cases hsum : pyGet d.summary "[no summary]" with
          | none =>
            simp [MetaAds.pollAux, hk, hrd, hD, hsum] at heq
            obtain ⟨h1, h2⟩ := heq
            subst h2
            simp
          | some s =>
            simp [MetaAds.pollAux, hk, hrd, hD, hsum] at heq
            obtain ⟨h1, h2⟩ := heq
            subst h2
            simp
        · by_cases hB : pyGet d.status "UNKNOWN" = some "BLOCKED"
          · simp [MetaAds.pollAux, hk, hrd, hD, hB] at heq
            obtain ⟨h1, h2⟩ := heq
            subst h2
            simp
          · simp [MetaAds.pollAux, hk, hrd, hD, hB] at heq
            obtain ⟨o', evs', hrec, ho, hevs⟩ := heq
            have hmem := ih (k + 1) o' evs' hrec
            subst hevs
            simp [hmem]

/-- `pollMeta` never adds a record write to the trace. -/
theorem pollMeta_no_write (read : Nat → Option Deliverable) (timeout : Nat)
    (o : PollOutcome) (evs : List Event)
    (h : MetaAds.pollMeta read timeout = some (o, evs)) :
    Event.writeInProgress ∉ evs :=
  pollAux_no_write read timeout 5 (timeout + 2) 0 o evs h

/-- For a short name present in `AGENT_SKILL_MAP`, the trigger issues
exactly one ssh invocation, whatever its outcome. -/
theorem trigger_known (sshRun : Nat → SSHOutcome) (agent host sk : String)
    (hsk : MetaAds.AGENT_SKILL_MAP agent = some sk) :
    ∃ succ msg, MetaAds.trigger_agent_ssh sshRun agent host = (succ, msg, [Event.sshExec 0]) := by
  unfold MetaAds.trigger_agent_ssh
  rw [hsk]
  cases sshRun 0 with
  | exited rc out err =>
    by_cases hrc : rc = 0
    · exact ⟨true, "Agent " ++ agent ++ " triggered successfully", by simp [hrc]⟩
    · exact ⟨false, "SSH failed: " ++ (MetaAds.pyOr err out).take 200, by simp [hrc]⟩
  | timedOut => exact ⟨false, "SSH to " ++ host ++ " timed out (>30s)", rfl⟩
  | sshMissing => exact ⟨false, "SSH client not found on this machine", rfl⟩
  | error m => exact ⟨false, "SSH trigger failed: " ++ m.take 100, rfl⟩

/-- The trigger trace is empty (unknown agent, no ssh call) or a single
ssh invocation. -/
theorem trigger_events (sshRun : Nat → SSHOutcome) (agent host : String) :
    (MetaAds.trigger_agent_ssh sshRun agent host).2.2 = []
    ∨ (MetaAds.trigger_agent_ssh sshRun agent host).2.2 = [Event.sshExec 0] := by
  unfold MetaAds.trigger_agent_ssh
  cases MetaAds.AGENT_SKILL_MAP agent with
  | none => exact Or.inl rfl
  | some sk =>
    cases sshRun 0 with
    | exited rc out err =>
      by_cases hrc : rc = 0
      · exact Or.inr (by simp [hrc])
      · exact Or.inr (by simp [hrc])
    | timedOut => exact Or.inr rfl
    | sshMissing => exact Or.inr rfl
    | error m => exact Or.inr rfl

/-- For a known agent the dispatch run always returns, its trace starts
with the record write immediately followed by the single ssh invocation,
and the write never recurs. -/
theorem dispatch_shape (env : MetaAds.MetaEnv)
    (agent cycle_id task_id brand_id host : String) (timeout : Nat) (sk : String)
    (hsk : MetaAds.AGENT_SKILL_MAP agent = some sk) :
    ∃ r rest, MetaAds.dispatch_and_monitor env agent cycle_id task_id brand_id host timeout
        = some (r, Event.writeInProgress :: Event.sshExec 0 :: rest)
      ∧ Event.writeInProgress ∉ rest := by
  obtain ⟨succ, msg, htr⟩ := trigger_known env.ssh agent host sk hsk
  unfold MetaAds.dispatch_and_monitor
  rw [htr]
  cases succ with
  | false => exact ⟨DispatchRet.exitCode 1, [], rfl, by simp⟩
  | true =>
    obtain ⟨⟨o, evs⟩, hpr⟩ := pollMeta_total env.read timeout
    have hnw := pollMeta_no_write env.read timeout o evs hpr
    cases o with
    | result st m =>
      exact ⟨DispatchRet.exitCode (MetaAds.exitFor st), evs, by simp [hpr], hnw⟩
    | pyError m =>
      exact ⟨DispatchRet.crashed m, evs, by simp [hpr], hnw⟩

/-- Every dispatch return's trace is the record write followed by a tail in
which the write never recurs: the dispatcher mutates the record exactly
once, before the trigger. -/
theorem dispatch_write_once (env : MetaAds.MetaEnv)
    (agent cycle_id task_id brand_id host : String) (timeout : Nat)
    (r : DispatchRet) (tr : List Event)
    (h : MetaAds.dispatch_and_monitor env agent cycle_id task_id brand_id host timeout
      = some (r, tr)) :
    ∃ rest, tr = Event.writeInProgress :: rest ∧ Event.writeInProgress ∉ rest := by
  have hte := trigger_events env.ssh agent host
  obtain ⟨succ, msg, tevs, htr⟩ :
      ∃ a b c, MetaAds.trigger_agent_ssh env.ssh agent host = (a, b, c) := ⟨_, _, _, rfl⟩
  unfold MetaAds.dispatch_and_monitor at h
  rw [htr] at h hte
  have htev : Event.writeInProgress ∉ tevs := by
    rcases hte with h1 | h1 <;> simp at h1 <;> simp [h1]
  cases succ with
  | false =>
    simp at h
    obtain ⟨h1, h2⟩ := h
    subst h2
    exact ⟨tevs, rfl, htev⟩
  | true =>
    cases hpr : MetaAds.pollMeta env.read timeout with
    | none =>
      obtain ⟨x, hx⟩ := pollMeta_total env.read timeout
      rw [hpr] at hx
      exact Option.noConfusion hx
    | some pr =>
      cases pr with
      | mk o evs =>
        have hnw := pollMeta_no_write env.read timeout o evs hpr
        rw [hpr] at h
        cases o with
        | result st m =>
          simp at h
          obtain ⟨h1, h2⟩ := h
          subst h2
          exact ⟨tevs ++ evs, by simp, by simp [htev, hnw]⟩
        | pyError m =>
          simp at h
          obtain ⟨h1, h2⟩ := h
          subst h2
          exact ⟨tevs ++ evs, by simp, by simp [htev, hnw]⟩

/-- If every read observes a non-terminal status (IN_PROGRESS or PENDING),
the loop keeps sleeping until the elapsed-time check fires, and the return
is a normal TIMEOUT result whose trace holds no record write. -/
theorem pollAux_nonterminal (read : Nat → Option Deliverable) (timeout interval : Nat)
    (hnt : ∀ j, ∃ d, read j = some d ∧
      (pyGet d.status "UNKNOWN" = some "IN_PROGRESS"
        ∨ pyGet d.status "UNKNOWN" = some "PENDING")) :
    ∀ fuel k, timeout < (k + fuel) * interval →
      ∃ n evs, MetaAds.pollAux read timeout interval fuel k
          = some (PollOutcome.result "TIMEOUT" (MetaAds.timeoutMsg timeout n), evs)
        ∧ Event.writeInProgress ∉ evs := by
  intro fuel
  induction fuel with
  | zero =>
    intro k hb
    have hk : k * interval > timeout := by simpa using hb
    exact ⟨k + 1, [], by simp [MetaAds.pollAux, hk], by simp⟩
  | succ f ih =>
    intro k hb
    by_cases hk : k * interval > timeout
    · exact ⟨k + 1, [], by simp [MetaAds.pollAux, hk], by simp⟩
    · obtain ⟨d, hrd, hst⟩ := hnt k
      have hD : ¬ (pyGet d.status "UNKNOWN" = some "DELIVERED") := by
        rcases hst with h | h <;> simp [h]
      have hB : ¬ (pyGet d.status "UNKNOWN" = some "BLOCKED") := by
        rcases hst with h | h <;> simp [h]
      have hb' : timeout < (k + 1 + f) * interval := by
        have h : k + 1 + f = k + (f + 1) := by omega
        rw [h]; exact hb
      obtain ⟨n, evs, he, hm⟩ := ih (k + 1) hb'
      refine ⟨n, Event.readRecord k :: Event.sleepEv :: evs, ?_, by simp [hm]⟩
      simp [MetaAds.pollAux, hk, hrd, hD, hB, he]

/-- If every read comes back not-found, the loop sleeps through the
30-second grace window and then returns TIMEOUT with the not-found
diagnostic.  The hypotheses reflect the operating regime of the script: a
positive poll interval no longer than the 30-second grace window and a
timeout at or above the 60-second validation floor. -/
theorem pollAux_allNone (read : Nat → Option Deliverable) (timeout interval : Nat)
    (hr : ∀ j, read j = none) (h1 : 1 ≤ interval) (h2 : interval ≤ 30)
    (h3 : 60 ≤ timeout) :
    ∀ fuel k, k * interval ≤ 30 → 32 ≤ fuel + k →
      ∃ evs, MetaAds.pollAux read timeout interval fuel k
          = some (PollOutcome.result "TIMEOUT" MetaAds.notFoundMsg, evs)
        ∧ Event.sleepEv ∈ evs := by
  intro fuel
  induction fuel with
  | zero =>
    intro k hk hf
    exfalso
    have hk30 : k ≤ 30 := le_trans (Nat.le_mul_of_pos_right k (by omega)) hk
    omega
  | succ f ih =>
    intro k hk hf
    have hto : ¬ (k * interval > timeout) := by
      have h30 : 30 ≤ timeout := by omega
      exact Nat.not_lt.mpr (le_trans hk h30)
    have hg : ¬ (k * interval > 30) := Nat.not_lt.mpr hk
    by_cases hnext : (k + 1) * interval ≤ 30
    · obtain ⟨evs, he, hm⟩ := ih (k + 1) hnext (by omega)
      refine ⟨Event.readRecord k :: Event.sleepEv :: evs, ?_, by simp⟩
      simp [MetaAds.pollAux, hto, hr k, hg, he]
    · cases f with
      | zero =>
        exfalso
        have hk30 : k ≤ 30 := le_trans (Nat.le_mul_of_pos_right k (by omega)) hk
        omega
      | succ fp =>
        have hsum : (k + 1) * interval = k * interval + interval := by ring
        have hle : (k + 1) * interval ≤ timeout := by
          rw [hsum]; omega
        have hto2 : ¬ ((k + 1) * interval > timeout) := Nat.not_lt.mpr hle
        have hg2 : (k + 1) * interval > 30 := Nat.lt_of_not_le hnext
        refine ⟨[Event.readRecord k, Event.sleepEv, Event.readRecord (k + 1)], ?_, by simp⟩
        simp [MetaAds.pollAux, hto, hr k, hg, hto2, hr (k + 1), hg2]

/-- Concatenation of strings concatenates their character lists. -/
theorem str_data_append (a b : String) : (a ++ b).data = a.data ++ b.data := rfl

/-- The not-found diagnostic differs from the stalled-past-timeout
diagnostic, whatever the timeout and poll count: the two TIMEOUT returns
are distinguishable. -/
theorem notFound_ne_timeoutMsg (t n : Nat) :
    MetaAds.notFoundMsg ≠ MetaAds.timeoutMsg t n := by
  intro h
  have hhead : MetaAds.notFoundMsg.data.head? = (MetaAds.timeoutMsg t n).data.head? := by
    rw [h]
  have h1 : MetaAds.notFoundMsg.data.head? = some 'T' := rfl
  have h2 : (MetaAds.timeoutMsg t n).data.head? = some 'A' := rfl
  rw [h1, h2] at hhead
  exact absurd hhead (by decide)

/-- The google-ads connection test always records exactly one test call. -/
theorem gtest_events (genv : GoogleAds.GEnv) :
    (GoogleAds.test_ssh_connection genv).2 = [Event.sshTest] := by
  unfold GoogleAds.test_ssh_connection
  cases genv.sshTest with
  | exited rc out err =>
    by_cases h : rc = 0 && GoogleAds.strContains out "CONNECTION_OK" <;> simp [h]
  | timedOut => rfl
  | sshMissing => rfl
  | error m => rfl

/-- The google-ads trigger always records exactly one ssh call. -/
theorem gtrig_events (genv : GoogleAds.GEnv) :
    (GoogleAds.trigger_agent genv).2 = [Event.sshExec 0] := by
  unfold GoogleAds.trigger_agent
  cases genv.sshTrig with
  | exited rc out err => rfl
  | timedOut => rfl
  | sshMissing => rfl
  | error m => rfl

/-- The full trace of a google-ads dispatch run is empty, the connection
test alone, or the connection test followed by the trigger. -/
theorem grun_events (genv : GoogleAds.GEnv) (a c t b : String) (tmo : Nat) :
    (GoogleAds.run genv a c t b tmo).2 = []
    ∨ (GoogleAds.run genv a c t b tmo).2 = [Event.sshTest]
    ∨ (GoogleAds.run genv a c t b tmo).2 = [Event.sshTest, Event.sshExec 0] := by
  unfold GoogleAds.run
  by_cases hv : GoogleAds.validate_inputs c t b (GoogleAds.agent_full a) tmo = true
  · have h1 := gtest_events genv
    have h2 := gtrig_events genv
    by_cases ht : (GoogleAds.test_ssh_connection genv).1 = true
    · right; right; simp [hv, ht, h1, h2]
    · right; left; simp [hv, ht, h1]
  · left; simp [hv]

/-- C1 (counterexample): on a fully valid input on which every ssh call
succeeds, the google-ads dispatcher returns success with a trace that
contains no IN_PROGRESS record write and no record read at all — it never
writes the record before triggering and never polls, contradicting the
claimed fixed order validate, write, trigger, poll. -/
theorem C1_counterexample :
    GoogleAds.run
        (GoogleAds.GEnv.mk (SSHOutcome.exited 0 "CONNECTION_OK\n" "")
          (SSHOutcome.exited 0 "" ""))
        "data-placement"
        "a1b2c3d4-e5f6-7890-abcd-ef1234567890"
        "a1b2c3d4-e5f6-7890-abcd-ef9876543210"
        "a1b2c3d4-e5f6-7890-abcd-efaabbccddee" 1800
      = (true, [Event.sshTest, Event.sshExec 0])
    ∧ Event.writeInProgress ∉ (GoogleAds.run
        (GoogleAds.GEnv.mk (SSHOutcome.exited 0 "CONNECTION_OK\n" "")
          (SSHOutcome.exited 0 "" ""))
        "data-placement"
        "a1b2c3d4-e5f6-7890-abcd-ef1234567890"
        "a1b2c3d4-e5f6-7890-abcd-ef9876543210"
        "a1b2c3d4-e5f6-7890-abcd-efaabbccddee" 1800).2
    ∧ ((GoogleAds.run
        (GoogleAds.GEnv.mk (SSHOutcome.exited 0 "CONNECTION_OK\n" "")
          (SSHOutcome.exited 0 "" ""))
        "data-placement"
        "a1b2c3d4-e5f6-7890-abcd-ef1234567890"
        "a1b2c3d4-e5f6-7890-abcd-ef9876543210"
        "a1b2c3d4-e5f6-7890-abcd-efaabbccddee" 1800).2.countP Event.isRead = 0) := by
  refine ⟨by decide, by decide, by decide⟩

/-- C1 (amended): in the meta-ads dispatcher the IN_PROGRESS write is the
first event of every run for a known agent, strictly before the single ssh
trigger call, and when the trigger succeeds and polling returns normally
the exit code is exactly the one determined by the polling status.  The
google-ads variant dispatches with no record write and no record read. -/
theorem C1_write_before_trigger_then_poll (env : MetaAds.MetaEnv)
    (agent cycle_id task_id brand_id host : String) (timeout : Nat) (sk : String)
    (hsk : MetaAds.AGENT_SKILL_MAP agent = some sk) :
    (∃ r rest, MetaAds.dispatch_and_monitor env agent cycle_id task_id brand_id host timeout
        = some (r, Event.writeInProgress :: Event.sshExec 0 :: rest)
      ∧ Event.writeInProgress ∉ rest)
    ∧ (∀ succ msg tevs st m evs,
        MetaAds.trigger_agent_ssh env.ssh agent host = (succ, msg, tevs) → succ = true →
        MetaAds.pollMeta env.read timeout = some (PollOutcome.result st m, evs) →
        MetaAds.dispatch_and_monitor env agent cycle_id task_id brand_id host timeout
          = some (DispatchRet.exitCode (MetaAds.exitFor st),
              Event.writeInProgress :: tevs ++ evs))
    ∧ (∀ (genv : GoogleAds.GEnv) (a c t b : String) (tmo : Nat),
        Event.writeInProgress ∉ (GoogleAds.run genv a c t b tmo).2
        ∧ (GoogleAds.run genv a c t b tmo).2.countP Event.isRead = 0) := by
  refine ⟨?_, ?_, ?_⟩
  · exact dispatch_shape env agent cycle_id task_id brand_id host timeout sk hsk
  · intro succ msg tevs st m evs htr hsucc hpr
    subst hsucc
    unfold MetaAds.dispatch_and_monitor
    rw [htr]
    simp [hpr]
  · intro genv a c t b tmo
    rcases grun_events genv a c t b tmo with h | h | h <;> rw [h] <;>
      exact ⟨by decide, by decide⟩

/-- C1 (witness): a concrete known-agent run whose trace starts with the
record write immediately followed by the trigger call. -/
theorem C1_witness :
    MetaAds.AGENT_SKILL_MAP "post_click" = some "meta-ads-postclick-analyst"
    ∧ ∃ r rest, MetaAds.dispatch_and_monitor
        (MetaAds.MetaEnv.mk true (fun _ => SSHOutcome.exited 0 "" "")
          (fun _ => some (Deliverable.mk (JsonField.str "BLOCKED") .missing .missing (JsonField.str "missing input"))))
        "post_click" "c" "t" "b" "h" 120
        = some (r, Event.writeInProgress :: Event.sshExec 0 :: rest)
      ∧ Event.writeInProgress ∉ rest :=
  ⟨rfl, (C1_write_before_trigger_then_poll _ "post_click" "c" "t" "b" "h" 120 _ rfl).1⟩

/-- C2 (counterexample): a run whose trigger is rejected (DISPATCH_FAILED)
exits with code 1, and a run whose trigger succeeds but whose record stays
IN_PROGRESS for the whole window — a TIMEOUT outcome, witnessed by the poll
status — also exits with code 1: the two outcomes share an exit code. -/
theorem C2_counterexample :
    (MetaAds.trigger_agent_ssh (fun _ => SSHOutcome.exited 255 "" "permission denied")
        "data_placement" "h").1 = false
    ∧ (MetaAds.dispatch_and_monitor
        (MetaAds.MetaEnv.mk true (fun _ => SSHOutcome.exited 255 "" "permission denied")
          (fun _ => none))
        "data_placement" "c" "t" "b" "h" 60).map Prod.fst
      = some (DispatchRet.exitCode 1)
    ∧ (MetaAds.pollMeta
        (fun _ => some (Deliverable.mk (JsonField.str "IN_PROGRESS") .missing .missing .missing))
        60).map (fun r => pollStatus r.1) = some (some "TIMEOUT")
    ∧ (MetaAds.dispatch_and_monitor
        (MetaAds.MetaEnv.mk true (fun _ => SSHOutcome.exited 0 "" "")
          (fun _ => some (Deliverable.mk (JsonField.str "IN_PROGRESS") .missing .missing .missing)))
        "data_placement" "c" "t" "b" "h" 60).map Prod.fst
      = some (DispatchRet.exitCode 1) :=
  ⟨rfl, rfl, rfl, rfl⟩

/-- C2 (amended): the exit-code mapping of the meta-ads dispatcher is
DELIVERED to 0, BLOCKED to 2 and TIMEOUT to 1, while every trigger failure
(DISPATCH_FAILED) also exits 1 — BLOCKED and DELIVERED are distinct from
every other outcome, but TIMEOUT and DISPATCH_FAILED are collapsed onto
exit code 1. -/
theorem C2_exit_codes :
    (∀ (env : MetaAds.MetaEnv) agent cycle_id task_id brand_id host timeout,
      (MetaAds.trigger_agent_ssh env.ssh agent host).1 = false →
      (MetaAds.dispatch_and_monitor env agent cycle_id task_id brand_id host timeout).map Prod.fst
        = some (DispatchRet.exitCode 1))
    ∧ (∀ (env : MetaAds.MetaEnv) agent cycle_id task_id brand_id host timeout st m evs,
      (MetaAds.trigger_agent_ssh env.ssh agent host).1 = true →
      MetaAds.pollMeta env.read timeout = some (PollOutcome.result st m, evs) →
      (MetaAds.dispatch_and_monitor env agent cycle_id task_id brand_id host timeout).map Prod.fst
        = some (DispatchRet.exitCode (MetaAds.exitFor st)))
    ∧ MetaAds.exitFor "DELIVERED" = 0 ∧ MetaAds.exitFor "BLOCKED" = 2
    ∧ MetaAds.exitFor "TIMEOUT" = 1 := by
  refine ⟨?_, ?_, rfl, rfl, rfl⟩
  · intro env agent cycle_id task_id brand_id host timeout hfail
    obtain ⟨succ, msg, tevs, htr⟩ :
        ∃ x y z, MetaAds.trigger_agent_ssh env.ssh agent host = (x, y, z) := ⟨_, _, _, rfl⟩
    rw [htr] at hfail
    simp at hfail
    subst hfail
    unfold MetaAds.dispatch_and_monitor
    rw [htr]
    simp
  · intro env agent cycle_id task_id brand_id host timeout st m evs hsucc hpr
    obtain ⟨succ, msg, tevs, htr⟩ :
        ∃ x y z, MetaAds.trigger_agent_ssh env.ssh agent host = (x, y, z) := ⟨_, _, _, rfl⟩
    rw [htr] at hsucc
    simp at hsucc
    subst hsucc
    unfold MetaAds.dispatch_and_monitor
    rw [htr]
    simp [hpr]

/-- C2 (witness): the trigger-failure half of the mapping at a concrete
environment. -/
theorem C2_witness :
    (MetaAds.trigger_agent_ssh (fun _ => SSHOutcome.sshMissing) "campaign_creator" "h2").1 = false
    ∧ (MetaAds.dispatch_and_monitor
        (MetaAds.MetaEnv.mk false (fun _ => SSHOutcome.sshMissing) (fun _ => none))
        "campaign_creator" "c" "t" "b" "h2" 90).map Prod.fst
      = some (DispatchRet.exitCode 1) :=
  ⟨rfl, C2_exit_codes.1
    (MetaAds.MetaEnv.mk false (fun _ => SSHOutcome.sshMissing) (fun _ => none))
    "campaign_creator" "c" "t" "b" "h2" 90 rfl⟩

/-- C3: when the remote command is rejected (nonzero exit from the
triggered process) the dispatcher returns exit code 1 — the
DISPATCH_FAILED path — and its full trace is the record write followed by
the single ssh attempt: the polling phase is never entered (no record
read) and the rejected trigger is never re-attempted (exactly one ssh
invocation). -/
theorem C3_rejection_no_poll_no_retry (env : MetaAds.MetaEnv)
    (agent cycle_id task_id brand_id host : String) (timeout : Nat) (sk : String)
    (hsk : MetaAds.AGENT_SKILL_MAP agent = some sk)
    (rc : Int) (out err : String) (hssh : env.ssh 0 = SSHOutcome.exited rc out err)
    (hrc : rc ≠ 0) :
    MetaAds.dispatch_and_monitor env agent cycle_id task_id brand_id host timeout
      = some (DispatchRet.exitCode 1, [Event.writeInProgress, Event.sshExec 0]) := by
  unfold MetaAds.dispatch_and_monitor MetaAds.trigger_agent_ssh
  rw [hsk, hssh]
  simp [hrc]

/-- C3 (witness): a concrete rejected trigger: exit code 1, one ssh event,
no record read. -/
theorem C3_witness :
    MetaAds.AGENT_SKILL_MAP "data_placement" = some "meta-ads-data-placement-analyst"
    ∧ (MetaAds.MetaEnv.mk true (fun _ => SSHOutcome.exited 1 "" "task refused") (fun _ => none)).ssh 0
      = SSHOutcome.exited 1 "" "task refused"
    ∧ MetaAds.dispatch_and_monitor
        (MetaAds.MetaEnv.mk true (fun _ => SSHOutcome.exited 1 "" "task refused") (fun _ => none))
        "data_placement" "c" "t" "b" "h" 3600
      = some (DispatchRet.exitCode 1, [Event.writeInProgress, Event.sshExec 0]) :=
  ⟨rfl, rfl, C3_rejection_no_poll_no_retry
    (MetaAds.MetaEnv.mk true (fun _ => SSHOutcome.exited 1 "" "task refused") (fun _ => none))
    "data_placement" "c" "t" "b" "h" 3600 _ rfl 1 "" "task refused" rfl (by decide)⟩

/-- C4 (counterexample): a DELIVERED record whose summary field is JSON
null, observed on the very first poll, does not make `poll` return
DELIVERED on that iteration — the `summary[:200]` slice raises a TypeError
instead, so the loop neither returns the observed terminal status nor
carries its summary. -/
theorem C4_counterexample :
    MetaAds.pollMeta
        (fun _ => some (Deliverable.mk (JsonField.str "DELIVERED") JsonField.null
          (JsonField.str "2026-01-01T00:00:00Z") .missing))
        3600
      = some (PollOutcome.pyError MetaAds.typeErrorMsg, [Event.readRecord 0]) := rfl

/-- C4 (amended): whenever a poll read observes BLOCKED, or DELIVERED with
a non-null summary, the loop returns that status on the same iteration —
one read, no further sleep — carrying the blocked-reason respectively the
delivered timestamp and summary; in particular BLOCKED observed on the
very first poll returns immediately.  (A DELIVERED record with a null
summary instead raises, see the C9 record.) -/
theorem C4_terminal_prompt_return (read : Nat → Option Deliverable)
    (timeout interval fuel k : Nat) (d : Deliverable)
    (hread : read k = some d) (hel : ¬ k * interval > timeout) :
    (pyGet d.status "UNKNOWN" = some "BLOCKED" →
      MetaAds.pollAux read timeout interval (fuel + 1) k
        = some (PollOutcome.result "BLOCKED"
            (MetaAds.blockedMsg (pyGet d.blocked_reason "Unknown reason")),
          [Event.readRecord k]))
    ∧ (∀ s, pyGet d.status "UNKNOWN" = some "DELIVERED" →
        pyGet d.summary "[no summary]" = some s →
        MetaAds.pollAux read timeout interval (fuel + 1) k
          = some (PollOutcome.result "DELIVERED"
              (MetaAds.deliveredMsg (pyGet d.delivered_at "") s),
            [Event.readRecord k]))
    ∧ (∀ tmo, pyGet d.status "UNKNOWN" = some "BLOCKED" → read 0 = some d →
        MetaAds.pollMeta read tmo
          = some (PollOutcome.result "BLOCKED"
              (MetaAds.blockedMsg (pyGet d.blocked_reason "Unknown reason")),
            [Event.readRecord 0])) := by
  refine ⟨?_, ?_, ?_⟩
  · intro hB
    have hD : ¬ (pyGet d.status "UNKNOWN" = some "DELIVERED") := by simp [hB]
    simp [MetaAds.pollAux, hel, hread, hD, hB]
  · intro s hD hs
    simp [MetaAds.pollAux, hel, hread, hD, hs]
  · intro tmo hB h0
    have hD : ¬ (pyGet d.status "UNKNOWN" = some "DELIVERED") := by simp [hB]
    show MetaAds.pollAux read tmo 5 (tmo + 1 + 1) 0 = _
    simp [MetaAds.pollAux, h0, hD, hB]

/-- C4 (witness): BLOCKED observed on the very first poll returns
immediately with the blocked-reason, after a single read. -/
theorem C4_witness :
    ((fun (_ : Nat) => some (Deliverable.mk (JsonField.str "BLOCKED") .missing .missing
        (JsonField.str "waiting for dependencies"))) 0
      = some (Deliverable.mk (JsonField.str "BLOCKED") .missing .missing
        (JsonField.str "waiting for dependencies")))
    ∧ MetaAds.pollMeta
        (fun _ => some (Deliverable.mk (JsonField.str "BLOCKED") .missing .missing
          (JsonField.str "waiting for dependencies")))
        60
      = some (PollOutcome.result "BLOCKED"
          (MetaAds.blockedMsg (some "waiting for dependencies")), [Event.readRecord 0]) :=
  ⟨rfl, (C4_terminal_prompt_return
      (fun _ => some (Deliverable.mk (JsonField.str "BLOCKED") .missing .missing
        (JsonField.str "waiting for dependencies")))
      60 5 0 0 _ rfl (by decide)).2.2 60 rfl rfl⟩

/-- C5: when every read observes a non-terminal status (IN_PROGRESS or
PENDING), `poll` returns a normal TIMEOUT result — no exception — with a
trace free of record writes; and every dispatch return's trace mutates the
record exactly once, at the very front, before the trigger: after the
trigger the dispatcher only reads. -/
theorem C5_nonterminal_timeout_no_write (read : Nat → Option Deliverable) (timeout : Nat)
    (hnt : ∀ j, ∃ d, read j = some d ∧
      (pyGet d.status "UNKNOWN" = some "IN_PROGRESS"
        ∨ pyGet d.status "UNKNOWN" = some "PENDING")) :
    (∃ n evs, MetaAds.pollMeta read timeout
        = some (PollOutcome.result "TIMEOUT" (MetaAds.timeoutMsg timeout n), evs)
      ∧ Event.writeInProgress ∉ evs)
    ∧ ∀ env agent cycle_id task_id brand_id host r tr,
        MetaAds.dispatch_and_monitor env agent cycle_id task_id brand_id host timeout
          = some (r, tr) →
        ∃ rest, tr = Event.writeInProgress :: rest ∧ Event.writeInProgress ∉ rest := by
  constructor
  · exact pollAux_nonterminal read timeout 5 hnt (timeout + 2) 0 (by omega)
  · intro env agent cycle_id task_id brand_id host r tr h
    exact dispatch_write_once env agent cycle_id task_id brand_id host timeout r tr h

/-- C5 (witness): a record that stays IN_PROGRESS forever makes the poll
return TIMEOUT with a write-free trace. -/
theorem C5_witness :
    (∀ j : Nat, ∃ d,
      (fun _ : Nat => some (Deliverable.mk (JsonField.str "IN_PROGRESS") .missing .missing .missing)) j
        = some d
      ∧ (pyGet d.status "UNKNOWN" = some "IN_PROGRESS"
          ∨ pyGet d.status "UNKNOWN" = some "PENDING"))
    ∧ (∃ n evs, MetaAds.pollMeta
        (fun _ => some (Deliverable.mk (JsonField.str "IN_PROGRESS") .missing .missing .missing)) 60
        = some (PollOutcome.result "TIMEOUT" (MetaAds.timeoutMsg 60 n), evs)
      ∧ Event.writeInProgress ∉ evs) :=
  ⟨fun _ => ⟨_, rfl, Or.inl rfl⟩,
    (C5_nonterminal_timeout_no_write
      (fun _ => some (Deliverable.mk (JsonField.str "IN_PROGRESS") .missing .missing .missing)) 60
      (fun _ => ⟨_, rfl, Or.inl rfl⟩)).1⟩

/-- C6: when every read comes back not-found, the loop tolerates the
absence and keeps polling (it sleeps at least once), and once the elapsed
time passes the 30-second grace window it returns TIMEOUT — a normal
return, not an error — with the not-found diagnostic, which differs from
the stalled-past-timeout diagnostic for every poll count.  Hypotheses pin
the operating regime: positive interval of at most the 30-second grace
window, timeout at or above the validated 60-second floor. -/
theorem C6_not_found_grace_timeout (read : Nat → Option Deliverable)
    (timeout interval : Nat) (hr : ∀ j, read j = none)
    (h1 : 1 ≤ interval) (h2 : interval ≤ 30) (h3 : 60 ≤ timeout) :
    ∃ evs, MetaAds.poll_for_completion read timeout interval
        = some (PollOutcome.result "TIMEOUT" MetaAds.notFoundMsg, evs)
      ∧ Event.sleepEv ∈ evs
      ∧ ∀ n, MetaAds.notFoundMsg ≠ MetaAds.timeoutMsg timeout n := by
  obtain ⟨evs, he, hm⟩ :=
    pollAux_allNone read timeout interval hr h1 h2 h3 (timeout + 2) 0 (by simp) (by omega)
  exact ⟨evs, he, hm, fun n => notFound_ne_timeoutMsg timeout n⟩

/-- C6 (witness): a record that never appears, polled every 5 seconds with
a 60-second timeout, yields TIMEOUT with the not-found diagnostic. -/
theorem C6_witness :
    (∀ j : Nat, (fun _ : Nat => (none : Option Deliverable)) j = none)
    ∧ (1 : Nat) ≤ 5 ∧ (5 : Nat) ≤ 30 ∧ (60 : Nat) ≤ 60
    ∧ ∃ evs, MetaAds.poll_for_completion (fun _ => none) 60 5
        = some (PollOutcome.result "TIMEOUT" MetaAds.notFoundMsg, evs)
      ∧ Event.sleepEv ∈ evs
      ∧ ∀ n, MetaAds.notFoundMsg ≠ MetaAds.timeoutMsg 60 n :=
  ⟨fun _ => rfl, by decide, by decide, by decide,
    C6_not_found_grace_timeout (fun _ => none) 60 5 (fun _ => rfl)
      (by decide) (by decide) (by decide)⟩

/-- C7 (counterexample): an agent short name that does not resolve through
the registry — `AGENT_NAMES` has no entry for it, so it is passed through
unchanged — still passes validation when the identifiers are well-formed
UUIDs and the timeout is at the floor: unresolvable agent names are not
rejected at the validation boundary. -/
theorem C7_counterexample :
    GoogleAds.AGENT_NAMES "bogus-agent" = none
    ∧ GoogleAds.agent_full "bogus-agent" = "bogus-agent"
    ∧ GoogleAds.validate_inputs
        "a1b2c3d4-e5f6-7890-abcd-ef1234567890"
        "a1b2c3d4-e5f6-7890-abcd-ef9876543210"
        "a1b2c3d4-e5f6-7890-abcd-efaabbccddee"
        (GoogleAds.agent_full "bogus-agent") 1800 = true :=
  ⟨rfl, rfl, by decide⟩

/-- C7 (amended): validation fails exactly when one of the three
identifiers is not a syntactically valid UUID, or the resolved agent name
is the empty string (the only unresolvable value the code rejects), or the
timeout is below the 60-second floor; and when validation fails the run
returns failure with an empty trace — no record write, no ssh call, no
poll: fail fast with no side effect. -/
theorem C7_validation_boundary (cycle_id task_id brand_id agent : String) (timeout : Nat) :
    (GoogleAds.validate_inputs cycle_id task_id brand_id (GoogleAds.agent_full agent) timeout
        = false
      ↔ (GoogleAds.pyUUIDOk cycle_id = false ∨ GoogleAds.pyUUIDOk task_id = false
          ∨ GoogleAds.pyUUIDOk brand_id = false ∨ GoogleAds.agent_full agent = ""
          ∨ timeout < 60))
    ∧ (∀ genv,
        GoogleAds.validate_inputs cycle_id task_id brand_id (GoogleAds.agent_full agent) timeout
          = false →
        GoogleAds.run genv agent cycle_id task_id brand_id timeout = (false, [])) := by
  constructor
  · unfold GoogleAds.validate_inputs
    split_ifs <;> simp_all
  · intro genv hv
    unfold GoogleAds.run
    simp [hv]

/-- C7 (witness): a malformed cycle identifier fails validation and the
run returns failure with no side effect. -/
theorem C7_witness :
    GoogleAds.validate_inputs "zzz" "a1b2c3d4-e5f6-7890-abcd-ef9876543210"
      "a1b2c3d4-e5f6-7890-abcd-efaabbccddee" (GoogleAds.agent_full "data-placement") 1800 = false
    ∧ GoogleAds.run
        (GoogleAds.GEnv.mk (SSHOutcome.exited 0 "CONNECTION_OK" "") (SSHOutcome.exited 0 "" ""))
        "data-placement" "zzz" "a1b2c3d4-e5f6-7890-abcd-ef9876543210"
        "a1b2c3d4-e5f6-7890-abcd-efaabbccddee" 1800 = (false, []) := by
  have h := C7_validation_boundary "zzz" "a1b2c3d4-e5f6-7890-abcd-ef9876543210"
    "a1b2c3d4-e5f6-7890-abcd-efaabbccddee" "data-placement" 1800
  have hv := h.1.mpr (Or.inl (by decide))
  exact ⟨hv, h.2 _ hv⟩

/-- C8 (counterexample): a first trigger attempt that fails with a
channel-level timeout — a connectivity failure — is not retried: the trace
shows exactly one ssh invocation and the run exits 1 (DISPATCH_FAILED),
even though the environment would have let a second attempt succeed. -/
theorem C8_counterexample :
    MetaAds.trigger_agent_ssh
        (fun n => if n = 0 then SSHOutcome.timedOut else SSHOutcome.exited 0 "" "")
        "data_placement" "hostB"
      = (false, "SSH to hostB timed out (>30s)", [Event.sshExec 0])
    ∧ (fun n => if n = 0 then SSHOutcome.timedOut else SSHOutcome.exited 0 "" "") 1
      = SSHOutcome.exited 0 "" ""
    ∧ (MetaAds.dispatch_and_monitor
        (MetaAds.MetaEnv.mk true
          (fun n => if n = 0 then SSHOutcome.timedOut else SSHOutcome.exited 0 "" "")
          (fun _ => none))
        "data_placement" "c" "t" "b" "hostB" 60).map Prod.fst
      = some (DispatchRet.exitCode 1) :=
  ⟨rfl, rfl, rfl⟩

/-- C8 (amended): the trigger makes exactly one ssh attempt for every
known agent — there is no retry loop and no backoff for any failure class —
and a connectivity failure (channel timeout) on that single attempt
immediately surfaces as DISPATCH_FAILED (exit code 1). -/
theorem C8_single_attempt_no_retry :
    (∀ (sshRun : Nat → SSHOutcome) (agent host sk : String),
      MetaAds.AGENT_SKILL_MAP agent = some sk →
      (MetaAds.trigger_agent_ssh sshRun agent host).2.2 = [Event.sshExec 0])
    ∧ (∀ (env : MetaAds.MetaEnv) agent cycle_id task_id brand_id host timeout,
        env.ssh 0 = SSHOutcome.timedOut →
        (MetaAds.dispatch_and_monitor env agent cycle_id task_id brand_id host timeout).map
            Prod.fst
          = some (DispatchRet.exitCode 1)) := by
  constructor
  · intro sshRun agent host sk hsk
    obtain ⟨succ, msg, htr⟩ := trigger_known sshRun agent host sk hsk
    rw [htr]
  · intro env agent cycle_id task_id brand_id host timeout hssh
    unfold MetaAds.dispatch_and_monitor MetaAds.trigger_agent_ssh
    rw [hssh]
    cases hag : MetaAds.AGENT_SKILL_MAP agent with
    | none => simp
    | some sk => simp

/-- C8 (witness): a connectivity timeout on the single attempt of a known
agent leaves exactly one ssh invocation in the trigger trace. -/
theorem C8_witness :
    MetaAds.AGENT_SKILL_MAP "creative_producer" = some "meta-ads-creative-producer"
    ∧ (MetaAds.trigger_agent_ssh (fun _ => SSHOutcome.timedOut) "creative_producer" "h").2.2
      = [Event.sshExec 0] :=
  ⟨rfl, C8_single_attempt_no_retry.1 (fun _ => SSHOutcome.timedOut) "creative_producer" "h"
    "meta-ads-creative-producer" rfl⟩

/-- C9: a store response whose DELIVERED row carries a null summary makes
the dispatcher crash — `summary[:200]` raises a TypeError that neither
`poll_for_completion` nor `dispatch_and_monitor` catches — instead of
returning a distinguishable result value: the propagation policy of the
spec is violated by the code on this input. -/
theorem C9_null_summary_crash :
    MetaAds.dispatch_and_monitor
        (MetaAds.MetaEnv.mk true (fun _ => SSHOutcome.exited 0 "" "")
          (fun _ => some (Deliverable.mk (JsonField.str "DELIVERED") JsonField.null
            (JsonField.str "2026-02-03T04:05:06Z") .missing)))
        "data_placement" "c" "t" "b" "h" 3600
      = some (DispatchRet.crashed MetaAds.typeErrorMsg,
          [Event.writeInProgress, Event.sshExec 0, Event.readRecord 0]) := rfl

/-- C10: the dispatcher never consults the result of the IN_PROGRESS
update — the run is identical whatever the PATCH reports — and even with a
failing update it still proceeds to the trigger (the ssh invocation is in
the trace, right after the attempted write). -/
theorem C10_update_result_ignored :
    (∀ (env : MetaAds.MetaEnv) (b : Bool) agent cycle_id task_id brand_id host timeout,
      MetaAds.dispatch_and_monitor (MetaAds.setUpd env b) agent cycle_id task_id brand_id host
          timeout
        = MetaAds.dispatch_and_monitor env agent cycle_id task_id brand_id host timeout)
    ∧ (∀ (env : MetaAds.MetaEnv) agent cycle_id task_id brand_id host timeout sk,
        MetaAds.AGENT_SKILL_MAP agent = some sk →
        ∃ r rest, MetaAds.dispatch_and_monitor (MetaAds.setUpd env false) agent cycle_id task_id
            brand_id host timeout
          = some (r, Event.writeInProgress :: Event.sshExec 0 :: rest)) := by
  constructor
  · intro env b agent cycle_id task_id brand_id host timeout
    rfl
  · intro env agent cycle_id task_id brand_id host timeout sk hsk
    obtain ⟨r, rest, h, _⟩ :=
      dispatch_shape (MetaAds.setUpd env false) agent cycle_id task_id brand_id host timeout sk hsk
    exact ⟨r, rest, h⟩

/-- C10 (witness): with a failing IN_PROGRESS update, a known agent is
still triggered and the run still proceeds past the write. -/
theorem C10_witness :
    MetaAds.AGENT_SKILL_MAP "campaign_monitor" = some "meta-ads-campaign-monitor"
    ∧ ∃ r rest, MetaAds.dispatch_and_monitor
        (MetaAds.setUpd
          (MetaAds.MetaEnv.mk true (fun _ => SSHOutcome.exited 0 "" "")
            (fun _ => some (Deliverable.mk (JsonField.str "BLOCKED") .missing .missing
              (JsonField.str "no input")))) false)
        "campaign_monitor" "c" "t" "b" "h" 120
      = some (r, Event.writeInProgress :: Event.sshExec 0 :: rest) :=
  ⟨rfl, C10_update_result_ignored.2
    (MetaAds.MetaEnv.mk true (fun _ => SSHOutcome.exited 0 "" "")
      (fun _ => some (Deliverable.mk (JsonField.str "BLOCKED") .missing .missing
        (JsonField.str "no input"))))
    "campaign_monitor" "c" "t" "b" "h" 120 "meta-ads-campaign-monitor" rfl⟩
